import Mathlib

/- Shallow embedding of src/main.py, an Instagram no-followback checker.
Python strings are modelled as lists of Unicode code points (List Nat) in the
parts where case folding or character-level inspection matters (username
normalization, rate-limit classification, raw file contents); plain Lean
strings model stored usernames, where only equality and lexicographic order
on code points matter (the String order of Lean, like that of Python,
compares code points). Lowercasing models the ASCII fragment of str.lower. -/

/-- Code points of a Lean string literal, modelling a Python str value. -/
def pyStr (s : String) : List Nat :=
  s.toList.map Char.toNat

/-- ASCII fragment of Python str.lower on a single code point. -/
def lowerCode (n : Nat) : Nat :=
  if 65 ≤ n ∧ n ≤ 90 then n + 32 else n

/-- Python str.lower over a whole string. -/
def lowerStr (s : List Nat) : List Nat :=
  s.map lowerCode

/-- Code points removed by Python str.strip with no argument (whitespace). -/
def isPySpace (n : Nat) : Bool :=
  decide (n = 9 ∨ n = 10 ∨ n = 11 ∨ n = 12 ∨ n = 13 ∨ n = 28 ∨ n = 29 ∨ n = 30 ∨
    n = 31 ∨ n = 32 ∨ n = 133 ∨ n = 160 ∨ n = 5760 ∨ (8192 ≤ n ∧ n ≤ 8202) ∨
    n = 8232 ∨ n = 8233 ∨ n = 8239 ∨ n = 8287 ∨ n = 12288)

/-- Python raw.strip(): drop whitespace from both ends. -/
def strip (s : List Nat) : List Nat :=
  ((s.dropWhile isPySpace).reverse.dropWhile isPySpace).reverse

/-- Python text.lstrip("@"): drop every leading at-sign (code point 64). -/
def lstripAt (s : List Nat) : List Nat :=
  s.dropWhile (· == 64)

/-- Python text.rstrip("/"): drop every trailing slash (code point 47). -/
def rstripSlash (s : List Nat) : List Nat :=
  (s.reverse.dropWhile (· == 47)).reverse

/-- Membership in the regex character class [A-Za-z0-9._] of src/main.py:203. -/
def isUpperUserChar (n : Nat) : Bool :=
  decide ((97 ≤ n ∧ n ≤ 122) ∨ (65 ≤ n ∧ n ≤ 90) ∨ (48 ≤ n ∧ n ≤ 57) ∨ n = 46 ∨ n = 95)

/-- Membership in the lowercase character class [a-z0-9._]. -/
def isLowerUserChar (n : Nat) : Bool :=
  decide ((97 ≤ n ∧ n ≤ 122) ∨ (48 ≤ n ∧ n ≤ 57) ∨ n = 46 ∨ n = 95)

/-- Literal part of the profile-URL regex of src/main.py:203, lowercased. -/
def igUrlLit : List Nat :=
  pyStr "instagram.com/"

/-- One position of the case-insensitive regex search
re.search(instagram.com/([A-Za-z0-9._]+), text, re.IGNORECASE): the literal
must match at the head (comparing lowercased text) and at least one class
character must follow; the capture is the maximal class run of the original
text. -/
def matchIgAt (s : List Nat) : Option (List Nat) :=
  if igUrlLit.isPrefixOf (s.map lowerCode) then
    let cap := (s.drop igUrlLit.length).takeWhile isUpperUserChar
    if cap.isEmpty then none else some cap
  else none

/-- Leftmost match of the profile-URL pattern, as re.search finds it. -/
def searchIg : List Nat → Option (List Nat)
  | [] => none
  | a :: t =>
    match matchIgAt (a :: t) with
    | some cap => some cap
    | none => searchIg t

/-- Python re.fullmatch([A-Za-z0-9._]+, text) viewed as a Bool. -/
def fullmatchUser (s : List Nat) : Bool :=
  !s.isEmpty && s.all isUpperUserChar

/-- Python re.fullmatch([a-z0-9._]+, text) viewed as a Bool. -/
def fullmatchLowerUser (s : List Nat) : Bool :=
  !s.isEmpty && s.all isLowerUserChar

/-- normalize_username of src/main.py:201-206. The empty list models the
Python empty string, the falsy absent value. -/
def normalize_username (raw : List Nat) : List Nat :=
  let text := rstripSlash (lstripAt (strip raw))
  let text := (searchIg text).getD text
  if fullmatchUser text then text.map lowerCode else []

/-- Python text.rstrip of exactly one trailing slash, as the specification
pipeline reads: strip one trailing "/" character. -/
def rstripOneSlash (s : List Nat) : List Nat :=
  match s.reverse with
  | 47 :: t => t.reverse
  | _ => s

/-- Reference pipeline read off the specification text: trim whitespace,
strip leading at-signs, strip exactly ONE trailing slash, replace a
profile-URL match by its captured username, lowercase, then accept only a
full match of [a-z0-9._]+. -/
def spec_normalize (raw : List Nat) : List Nat :=
  let text := rstripOneSlash (lstripAt (strip raw))
  let text := (searchIg text).getD text
  let lowered := text.map lowerCode
  if fullmatchLowerUser lowered then lowered else []

/-- Reference pipeline amended at the single point the code forces: strip
ALL trailing slashes, as Python rstrip("/") does, instead of one. -/
def spec_normalize_amended (raw : List Nat) : List Nat :=
  let text := rstripSlash (lstripAt (strip raw))
  let text := (searchIg text).getD text
  let lowered := text.map lowerCode
  if fullmatchLowerUser lowered then lowered else []

/-- RATE_LIMIT_HINTS of src/main.py:25-30. -/
def RATE_LIMIT_HINTS : List (List Nat) :=
  [pyStr "Please wait a few minutes", pyStr "401 Unauthorized",
   pyStr "feedback_required", pyStr "rate limit"]

/-- Python substring containment: strContains hay needle is (needle in hay). -/
def strContains : List Nat → List Nat → Bool
  | hay, needle =>
    needle.isPrefixOf hay ||
      match hay with
      | [] => false
      | _ :: t => strContains t needle

/-- is_rate_limited of src/main.py:146-148, on the message of the error. -/
def is_rate_limited (msg : List Nat) : Bool :=
  RATE_LIMIT_HINTS.any fun hint => strContains (lowerStr msg) (lowerStr hint)

/-- Minimal JSON value model for the snapshot documents. -/
inductive Json where
  | str (s : String)
  | arr (elts : List Json)
  | obj (fields : List (String × Json))

/-- Content held at a snapshot location: a document json.loads can parse, or
text it rejects. -/
inductive FileContent where
  | json (j : Json)
  | malformed

/-- Snapshot dataclass of src/main.py:112-118, with the field types the
dataclass itself declares. -/
structure Snapshot where
  generated_at : String
  source : String
  target : String
  followers : List String
  followees : List String

/-- Failures of load_snapshot: the json.JSONDecodeError raised on malformed
text, and the KeyError/TypeError raised when a declared field cannot be read
from the parsed document. -/
inductive LoadErr where
  | decodeError
  | fieldError

/-- Lookup of a key in a parsed JSON object; on any other JSON value the
Python subscript raises, modelled by none. -/
def lookupField : List (String × Json) → String → Option Json
  | [], _ => none
  | (k, v) :: rest, key => if key = k then some v else lookupField rest key

/-- Field access raw[key] on a parsed document. -/
def Json.getField : Json → String → Option Json
  | .obj fields, key => lookupField fields key
  | _, _ => none

/-- View of a JSON value as a Python str. -/
def Json.asStr : Json → Option String
  | .str s => some s
  | _ => none

/-- View of a list of JSON values as a list of Python strs. -/
def strListOf : List Json → Option (List String)
  | [] => some []
  | .str s :: rest => (strListOf rest).map (s :: ·)
  | _ => none

/-- View of a JSON value as a list of Python strs. -/
def Json.asStrList : Json → Option (List String)
  | .arr elts => strListOf elts
  | _ => none

/-- snapshot_path of src/main.py:151-154. -/
def snapshot_path (snapshot_dir target source : String) : String :=
  snapshot_dir ++ "/" ++ (target.replace "/" "_") ++ "-" ++
    (source.replace "/" "_") ++ "-snapshot.json"

/-- save_snapshot of src/main.py:157-166, as the document it serializes to
the location. The freshly generated UTC timestamp is the parameter
generated_at; followers and followees are written sorted, as
Python sorted does on a set of strings. -/
def save_snapshot (generated_at source target : String)
    (followers followees : Finset String) : FileContent :=
  .json (.obj
    [("generated_at", .str generated_at),
     ("source", .str source),
     ("target", .str target),
     ("followers", .arr ((followers.sort (· ≤ ·)).map .str)),
     ("followees", .arr ((followees.sort (· ≤ ·)).map .str))])

/-- load_snapshot of src/main.py:169-179, as a function of the content at
the location (none when the location does not exist). Malformed text makes
json.loads raise; a missing or ill-typed declared field makes the dataclass
reconstruction raise; raw.get of "source" falls back to the sentinel
"unknown". The Python code never checks the declared field types at
runtime, so documents violating the dataclass annotations are modelled as
the read errors they become for every consumer of the typed fields. -/
def load_snapshot (file : Option FileContent) : Except LoadErr (Option Snapshot) :=
  match file with
  | none => .ok none
  | some .malformed => .error .decodeError
  | some (.json raw) =>
    match (raw.getField "generated_at").bind Json.asStr with
    | none => .error .fieldError
    | some generated_at =>
      match Json.asStr ((raw.getField "source").getD (.str "unknown")) with
      | none => .error .fieldError
      | some source =>
        match (raw.getField "target").bind Json.asStr with
        | none => .error .fieldError
        | some target =>
          match (raw.getField "followers").bind Json.asStrList with
          | none => .error .fieldError
          | some followers =>
            match (raw.getField "followees").bind Json.asStrList with
            | none => .error .fieldError
            | some followees =>
              .ok (some ⟨generated_at, source, target, followers, followees⟩)

/-- Observable contents of the location over the course of the write of
save_snapshot (src/main.py:166): path.write_text opens the file in the
truncating "w" mode and then writes the serialized document doc, so the
location passes through every prefix of doc, starting with the empty file.
The argument old is the content before the call, none when the location
does not exist yet. -/
def save_snapshot_write_states (old : Option (List Nat)) (doc : List Nat) :
    List (Option (List Nat)) :=
  old :: (List.range (doc.length + 1)).map (fun k => some (doc.take k))

/-- Report computed by print_summary of src/main.py:214-226: the counts and
the two sorted difference lists it prints. -/
structure Summary where
  followers_count : Nat
  followees_count : Nat
  no_me_siguen : List String
  te_siguen_y_no_seguidos : List String

/-- print_summary of src/main.py:214-226, reduced to the values it prints. -/
def print_summary (followers followees : Finset String) : Summary :=
  ⟨followers.card, followees.card,
   (followees \ followers).sort (· ≤ ·),
   (followers \ followees).sort (· ≤ ·)⟩

/-- Remote profile record, reduced to the username field the fetch reads. -/
structure Profile where
  username : String

/-- Errors escaping fetch_with_backoff: the re-raised error of an attempt,
or the trailing RuntimeError after the loop. Each carries str(error). -/
inductive FetchErr where
  | raised (msg : List Nat)
  | exhausted (msg : List Nat)

/-- Trace of one fetch_with_backoff call: its outcome, the sleep durations
in order, and how many times the action was invoked. -/
structure FetchTrace where
  result : Except FetchErr (Finset String)
  sleeps : List Int
  calls : Nat

/-- Decimal digits of a natural number, most significant first. -/
def natDecimalAux : Nat → Nat → List Nat
  | 0, _ => []
  | _ + 1, 0 => []
  | fuel + 1, n + 1 => natDecimalAux fuel ((n + 1) / 10) ++ [48 + (n + 1) % 10]

/-- Python str of a nonnegative int. -/
def natDecimal (n : Nat) : List Nat :=
  if n = 0 then [48] else natDecimalAux n n

/-- Python str of an int. -/
def intDecimal (i : Int) : List Nat :=
  if i < 0 then 45 :: natDecimal i.natAbs else natDecimal i.toNat

/-- Message of the trailing RuntimeError of src/main.py:271. -/
def runtimeMsg (label : List Nat) (retries : Int) : List Nat :=
  pyStr "No se pudo consultar " ++ label ++ pyStr " luego de " ++
    intDecimal retries ++ pyStr " intentos"

/-- Loop body of fetch_with_backoff (src/main.py:261-271) over the list of
remaining attempt numbers. The Python action is a stateful zero-argument
callable; it is modelled by the map from the attempt number of an invocation
to the outcome of that invocation, an error message or an iterable of records.
An exhausted list is the fallthrough to the trailing RuntimeError. -/
def fetchLoop (act : Nat → Except (List Nat) (List Profile)) (label : List Nat)
    (retries base_wait : Int) : List Nat → FetchTrace
  | [] => ⟨.error (.exhausted (runtimeMsg label retries)), [], 0⟩
  | attempt :: rest =>
    match act attempt with
    | .ok profiles => ⟨.ok (profiles.map Profile.username).toFinset, [], 1⟩
    | .error err =>
      if is_rate_limited err = false ∨ (attempt : Int) ≥ retries then
        ⟨.error (.raised err), [], 1⟩
      else
        let tail := fetchLoop act label retries base_wait rest
        ⟨tail.result, base_wait * (attempt : Int) :: tail.sleeps, tail.calls + 1⟩

/-- fetch_with_backoff of src/main.py:261-271: the loop runs over the
attempt numbers range(1, retries + 1). -/
def fetch_with_backoff (act : Nat → Except (List Nat) (List Profile))
    (label : List Nat) (retries base_wait : Int) : FetchTrace :=
  fetchLoop act label retries base_wait (List.range' 1 retries.toNat)

/-- Message str(error) seen by the except handler of run_api. -/
def fetchErrMsg : FetchErr → List Nat
  | .raised msg => msg
  | .exhausted msg => msg

/-- Observable outcome of one run_api call: the exit status, the summary it
prints (none when it fails before reconciling), whether the stale-snapshot
fallback was reported, and the document it saved on success. -/
structure RunApiResult where
  exit_code : Int
  summary : Option Summary
  used_fallback : Bool
  saved : Option FileContent

/-- Except-handler of run_api (src/main.py:324-338): classify the error; on
a rate-limited one, load the api snapshot at out_path and either reconcile
from it (exit 0, fallback reported) or fail with exit 2; any other error
exits 1. An error raised by load_snapshot itself propagates out. -/
def run_api_rescue (e : FetchErr) (stored : Option FileContent) :
    Except LoadErr RunApiResult :=
  if is_rate_limited (fetchErrMsg e) then
    match load_snapshot stored with
    | .error le => .error le
    | .ok (some cached) =>
      .ok ⟨0, some (print_summary cached.followers.toFinset cached.followees.toFinset),
        true, none⟩
    | .ok none => .ok ⟨2, none, false, none⟩
  else .ok ⟨1, none, false, none⟩

/-- Acquisition phase of run_api (src/main.py:308-341), from the two fetch
calls on: fetch followers, then followees, save the api snapshot and print
the summary on success; dispatch any fetch error to the except handler.
The parameter stored is the content at out_path, and generated_at the
timestamp the success path would write. -/
def run_api_core (generated_at target : String)
    (actF actG : Nat → Except (List Nat) (List Profile))
    (retries base_wait : Int) (stored : Option FileContent) :
    Except LoadErr RunApiResult :=
  match (fetch_with_backoff actF (pyStr "followers") retries base_wait).result with
  | .error e => run_api_rescue e stored
  | .ok followers =>
    match (fetch_with_backoff actG (pyStr "followees") retries base_wait).result with
    | .error e => run_api_rescue e stored
    | .ok followees =>
      .ok ⟨0, some (print_summary followers followees), false,
        some (save_snapshot generated_at "api" target followers followees)⟩

/-- Lowercasing a code point moves the class [A-Za-z0-9._] exactly onto the
class [a-z0-9._]. -/
theorem lowerCode_user_class (n : Nat) :
    isLowerUserChar (lowerCode n) = isUpperUserChar n := by
  unfold lowerCode isLowerUserChar isUpperUserChar
  split <;> (simp only [decide_eq_decide]; omega)

/-- Characterwise transport of the full-class check through str.lower. -/
theorem all_map_lowerCode (t : List Nat) :
    (t.map lowerCode).all isLowerUserChar = t.all isUpperUserChar := by
  induction t with
  | nil => rfl
  | cons a t ih => simp only [List.map_cons, List.all_cons, ih, lowerCode_user_class]

/-- The final acceptance test commutes with lowercasing: checking
[A-Za-z0-9._]+ on the raw text and then lowercasing agrees with lowercasing
first and checking [a-z0-9._]+. -/
theorem fullmatch_lower_comm (t : List Nat) :
    fullmatchLowerUser (t.map lowerCode) = fullmatchUser t := by
  unfold fullmatchUser fullmatchLowerUser
  rw [all_map_lowerCode]
  cases t <;> rfl

/-- Facts about a code point of the accepted output class [a-z0-9._]: it is
not whitespace, not an at-sign, not a slash, lies in the wide class, and is
fixed by lowercasing. -/
theorem lower_class_facts (n : Nat) (h : isLowerUserChar n = true) :
    isPySpace n = false ∧ n ≠ 64 ∧ n ≠ 47 ∧ isUpperUserChar n = true ∧
      lowerCode n = n := by
  unfold isLowerUserChar at h
  unfold isPySpace isUpperUserChar lowerCode
  simp only [decide_eq_true_eq] at h
  refine ⟨?_, ?_, ?_, ?_, ?_⟩
  · simp only [decide_eq_false_iff_not]; omega
  · omega
  · omega
  · simp only [decide_eq_true_eq]; omega
  · rw [if_neg (by omega)]

/-- A dropWhile whose predicate fails on every element drops nothing. -/
theorem dropWhile_all_false {p : Nat → Bool} {l : List Nat}
    (h : ∀ a ∈ l, p a = false) : l.dropWhile p = l := by
  cases l with
  | nil => rfl
  | cons a t => simp [List.dropWhile_cons, h a (List.mem_cons_self a t)]

/-- The profile-URL search can only succeed on text containing a slash,
because the literal part of the pattern ends in one. -/
theorem searchIg_no_slash {s : List Nat} (h : ∀ a ∈ s, a ≠ 47) :
    searchIg s = none := by
  induction s with
  | nil => rfl
  | cons a t ih =>
    have hm : matchIgAt (a :: t) = none := by
      unfold matchIgAt
      rw [if_neg]
      intro hpre
      have hp := List.isPrefixOf_iff_prefix.mp hpre
      have h47 : (47 : Nat) ∈ (a :: t).map lowerCode :=
        hp.subset (by decide : (47 : Nat) ∈ igUrlLit)
      obtain ⟨b, hb, hb47⟩ := List.mem_map.mp h47
      have hb' : b = 47 := by unfold lowerCode at hb47; split at hb47 <;> omega
      exact h b hb hb'
    unfold searchIg
    rw [hm]
    exact ih fun b hb => h b (List.mem_cons_of_mem a hb)

/-- Every non-absent output of normalize_username is a nonempty word of the
accepted class [a-z0-9._]+. -/
theorem normalize_output_class (x : List Nat) :
    normalize_username x = [] ∨
      (normalize_username x).all isLowerUserChar = true := by
  unfold normalize_username
  cases hf : fullmatchUser ((searchIg (rstripSlash (lstripAt (strip x)))).getD
      (rstripSlash (lstripAt (strip x)))) with
  | false => left; simp [hf]
  | true =>
    right
    simp only [hf, if_true]
    rw [all_map_lowerCode]
    have h' := hf
    unfold fullmatchUser at h'
    exact (Bool.and_eq_true_iff.mp h').2

/-- C7 counterexample: the claimed reference pipeline strips exactly one
trailing slash and so maps "bob//" to absent, but normalize_username in the
code strips every trailing slash (Python rstrip) and accepts "bob". -/
theorem normalize_username_double_slash_counterexample :
    normalize_username (pyStr "bob//") = pyStr "bob" ∧
    spec_normalize (pyStr "bob//") = [] ∧
    normalize_username (pyStr "bob//") ≠ spec_normalize (pyStr "bob//") := by
  refine ⟨by decide, by decide, by decide⟩

/-- C7 (amended): normalize_username equals the reference pipeline of the
claim once its slash step reads "strip all trailing slash characters"
instead of exactly one: trim whitespace, strip leading at-signs, strip all
trailing slashes, replace a profile-URL match by its captured username,
lowercase, and accept exactly the full matches of [a-z0-9._]+, returning
absent otherwise and never raising. -/
theorem normalize_username_eq_amended_pipeline (raw : List Nat) :
    normalize_username raw = spec_normalize_amended raw := by
  have key : ∀ t : List Nat,
      (if fullmatchUser t then t.map lowerCode else []) =
        (if fullmatchLowerUser (t.map lowerCode) then t.map lowerCode else []) := by
    intro t
    rw [fullmatch_lower_comm]
  exact key ((searchIg (rstripSlash (lstripAt (strip raw)))).getD
    (rstripSlash (lstripAt (strip raw))))

/-- C8: normalize_username is idempotent on every accepted output. An
accepted output is a nonempty word over [a-z0-9._], which contains no
whitespace, no at-sign and no slash, is untouched by the profile-URL search
(whose literal needs a slash), and is fixed by lowercasing. -/
theorem normalize_username_idempotent (x : List Nat)
    (h : normalize_username x ≠ []) :
    normalize_username (normalize_username x) = normalize_username x := by
  have hall : (normalize_username x).all isLowerUserChar = true :=
    (normalize_output_class x).resolve_left h
  set y := normalize_username x with hy
  have hmem : ∀ a ∈ y, isLowerUserChar a = true := by
    simpa [List.all_eq_true] using hall
  have h1 : strip y = y := by
    unfold strip
    rw [dropWhile_all_false fun a ha => (lower_class_facts a (hmem a ha)).1,
      dropWhile_all_false fun a ha =>
        (lower_class_facts a (hmem a (List.mem_reverse.mp ha))).1,
      List.reverse_reverse]
  have h2 : lstripAt y = y :=
    dropWhile_all_false fun a ha => by
      simpa using (lower_class_facts a (hmem a ha)).2.1
  have h3 : rstripSlash y = y := by
    unfold rstripSlash
    rw [dropWhile_all_false fun a ha => by
        simpa using (lower_class_facts a (hmem a (List.mem_reverse.mp ha))).2.2.1,
      List.reverse_reverse]
  have h4 : searchIg y = none :=
    searchIg_no_slash fun a ha => (lower_class_facts a (hmem a ha)).2.2.1
  have h5 : fullmatchUser y = true := by
    unfold fullmatchUser
    rw [Bool.and_eq_true_iff]
    constructor
    · cases hc : y with
      | nil => exact absurd hc h
      | cons a t => rfl
    · rw [List.all_eq_true]
      exact fun a ha => (lower_class_facts a (hmem a ha)).2.2.2.1
  have h6 : y.map lowerCode = y := by
    have := List.map_congr_left
      (fun a ha => (lower_class_facts a (hmem a ha)).2.2.2.2)
    simpa using this
  conv_lhs => rw [normalize_username]
  simp only [h1, h2, h3, h4, Option.getD_none, h5, if_true, h6]

/-- Serializing a list of strings and reading it back is the identity. -/
theorem strListOf_map_str (xs : List String) :
    strListOf (xs.map Json.str) = some xs := by
  induction xs with
  | nil => rfl
  | cons s rest ih => simp [strListOf, ih]

/-- C5: save followed by load round-trips: the loaded Snapshot carries the
same timestamp, source and target, and its followers and followees are
exactly the sorted lists of the saved sets. -/
theorem load_save_roundtrip (generated_at source target : String)
    (A B : Finset String) :
    load_snapshot (some (save_snapshot generated_at source target A B)) =
      .ok (some ⟨generated_at, source, target, A.sort (· ≤ ·), B.sort (· ≤ ·)⟩) := by
  simp [load_snapshot, save_snapshot, Json.getField, lookupField, Json.asStr,
    Json.asStrList, strListOf_map_str, Option.bind]

/-- C6: load_snapshot returns absent exactly when the location does not
exist; malformed text at an existing location is the fatal decode error,
never absent and never a Snapshot; and any Snapshot reconstructed from a
parsed document with no source field carries the sentinel source
"unknown". -/
theorem load_snapshot_absent_and_default (file : Option FileContent) :
    (load_snapshot file = .ok none ↔ file = none) ∧
    (file = some .malformed → load_snapshot file = .error .decodeError) ∧
    (∀ raw snap, file = some (.json raw) → raw.getField "source" = none →
      load_snapshot file = .ok (some snap) → snap.source = "unknown") := by
  refine ⟨⟨?_, ?_⟩, ?_, ?_⟩
  · intro h
    match file with
    | none => rfl
    | some .malformed => exact absurd h (by simp [load_snapshot])
    | some (.json raw) =>
      exfalso
      simp only [load_snapshot] at h
      repeat' split at h
      all_goals simp_all
  · rintro rfl; rfl
  · rintro rfl; rfl
  · rintro raw snap rfl hsrc h
    simp only [load_snapshot] at h
    rw [hsrc] at h
    repeat' split at h
    all_goals simp_all [Json.asStr]
    subst h
    rfl

/-- Witness for the C6 theorem at concrete inputs: a parsed document with no
source field loads to a Snapshot carrying the sentinel source, and malformed
content at an existing location is the decode error. -/
theorem load_snapshot_absent_and_default_witness :
    Snapshot.source ⟨"t0", "unknown", "acct", [], []⟩ = "unknown" ∧
    load_snapshot (some .malformed) = .error .decodeError :=
  ⟨(load_snapshot_absent_and_default (some (.json (.obj
      [("generated_at", .str "t0"), ("target", .str "acct"),
       ("followers", .arr []), ("followees", .arr [])])))).2.2
      (.obj [("generated_at", .str "t0"), ("target", .str "acct"),
       ("followers", .arr []), ("followees", .arr [])])
      ⟨"t0", "unknown", "acct", [], []⟩ rfl rfl rfl,
   (load_snapshot_absent_and_default (some .malformed)).2.1 rfl⟩

/-- C4 counterexample: save_snapshot writes with path.write_text, an
in-place truncating write, so mid-write the location holds a strict prefix
of the new document, which is neither the previous content, nor the
complete new document, nor nothing. -/
theorem save_snapshot_write_not_atomic_counterexample :
    some (pyStr "new") ∈
      save_snapshot_write_states (some (pyStr "old-doc")) (pyStr "new-doc") ∧
    some (pyStr "new") ≠ some (pyStr "old-doc") ∧
    some (pyStr "new") ≠ some (pyStr "new-doc") ∧
    (some (pyStr "new") : Option (List Nat)) ≠ none := by
  refine ⟨by decide, by decide, by decide, by decide⟩

/-- C4 (amended): save_snapshot performs an in-place truncating write, not a
write-replace: the location starts at the previous content, every prefix of
the new document (the empty file included) is an observable intermediate
state, and only the final state holds the complete new document. -/
theorem save_snapshot_truncating_write (old : Option (List Nat))
    (doc : List Nat) :
    (save_snapshot_write_states old doc).head? = some old ∧
    (save_snapshot_write_states old doc).getLast? = some (some doc) ∧
    (∀ k, k ≤ doc.length → some (doc.take k) ∈ save_snapshot_write_states old doc) ∧
    (∀ s, s ∈ save_snapshot_write_states old doc →
      s = old ∨ ∃ k, k ≤ doc.length ∧ s = some (doc.take k)) := by
  refine ⟨rfl, ?_, ?_, ?_⟩
  · rw [save_snapshot_write_states, List.range_succ, List.map_append,
      show List.map (fun k => some (List.take k doc)) [doc.length] =
        [some (List.take doc.length doc)] from rfl,
      show (old :: (List.map (fun k => some (List.take k doc)) (List.range doc.length) ++
          [some (List.take doc.length doc)])) =
        ((old :: List.map (fun k => some (List.take k doc)) (List.range doc.length)) ++
          [some (List.take doc.length doc)]) from rfl,
      List.getLast?_concat, List.take_length]
  · intro k hk
    rw [save_snapshot_write_states]
    exact List.mem_cons_of_mem _ (List.mem_map.mpr ⟨k, List.mem_range.mpr (by omega), rfl⟩)
  · intro s hs
    rw [save_snapshot_write_states] at hs
    rcases List.mem_cons.mp hs with h | h
    · exact Or.inl h
    · obtain ⟨k, hk, rfl⟩ := List.mem_map.mp h
      exact Or.inr ⟨k, by have := List.mem_range.mp hk; omega, rfl⟩

/-- Witness for the amended C4 theorem at a concrete write: the final state
is the complete new document and the one-byte prefix is observable. -/
theorem save_snapshot_truncating_write_witness :
    (save_snapshot_write_states (some (pyStr "old")) (pyStr "ab")).getLast? =
      some (some (pyStr "ab")) ∧
    some ((pyStr "ab").take 1) ∈
      save_snapshot_write_states (some (pyStr "old")) (pyStr "ab") :=
  ⟨(save_snapshot_truncating_write (some (pyStr "old")) (pyStr "ab")).2.1,
   (save_snapshot_truncating_write (some (pyStr "old")) (pyStr "ab")).2.2.1 1
     (by decide)⟩

/-- C9: print_summary is disjoint-complete and sorted: no_me_siguen is the
ascending sorted duplicate-free enumeration of followees minus followers,
te_siguen_y_no_seguidos of followers minus followees, and no common member
of both sets appears in either list. The computation is a pure function of
the two sets. -/
theorem print_summary_reconciliation (F G : Finset String) :
    List.Sorted (· ≤ ·) (print_summary F G).no_me_siguen ∧
    (print_summary F G).no_me_siguen.Nodup ∧
    List.Sorted (· ≤ ·) (print_summary F G).te_siguen_y_no_seguidos ∧
    (print_summary F G).te_siguen_y_no_seguidos.Nodup ∧
    (∀ x, x ∈ (print_summary F G).no_me_siguen ↔ x ∈ G ∧ x ∉ F) ∧
    (∀ x, x ∈ (print_summary F G).te_siguen_y_no_seguidos ↔ x ∈ F ∧ x ∉ G) ∧
    (∀ x, x ∈ F → x ∈ G →
      x ∉ (print_summary F G).no_me_siguen ∧
      x ∉ (print_summary F G).te_siguen_y_no_seguidos) := by
  unfold print_summary
  refine ⟨Finset.sort_sorted _ _, Finset.sort_nodup _ _, Finset.sort_sorted _ _,
    Finset.sort_nodup _ _, ?_, ?_, ?_⟩
  · intro x
    rw [Finset.mem_sort, Finset.mem_sdiff]
  · intro x
    rw [Finset.mem_sort, Finset.mem_sdiff]
  · intro x hF hG
    constructor
    · rw [Finset.mem_sort, Finset.mem_sdiff]
      exact fun h => h.2 hF
    · rw [Finset.mem_sort, Finset.mem_sdiff]
      exact fun h => h.2 hG

/-- Witness for C9 at the example of the specification: followers alice and
bob, followees alice and carol; the reciprocal account alice lands in
neither difference list. -/
theorem print_summary_reconciliation_witness :
    "alice" ∉ (print_summary ({"alice", "bob"} : Finset String)
      {"alice", "carol"}).no_me_siguen ∧
    "alice" ∉ (print_summary ({"alice", "bob"} : Finset String)
      {"alice", "carol"}).te_siguen_y_no_seguidos :=
  (print_summary_reconciliation {"alice", "bob"} {"alice", "carol"}).2.2.2.2.2.2
    "alice" (by decide) (by decide)

/-- Skipping a run of rate-limited attempts: while every attempt in the
range fails rate-limited and stays below the retry bound, the loop sleeps
base_wait times the attempt number once per failed attempt and continues
with the remaining attempts. -/
theorem fetchLoop_skip (act : Nat → Except (List Nat) (List Profile))
    (label : List Nat) (retries base_wait : Int) :
    ∀ (n a : Nat) (rest : List Nat), ((a + n : Nat) : Int) ≤ retries →
    (∀ i, a ≤ i → i < a + n → ∃ m, act i = .error m ∧ is_rate_limited m = true) →
    fetchLoop act label retries base_wait (List.range' a n ++ rest) =
      ⟨(fetchLoop act label retries base_wait rest).result,
       ((List.range' a n).map fun i : Nat => base_wait * (i : Int)) ++
         (fetchLoop act label retries base_wait rest).sleeps,
       n + (fetchLoop act label retries base_wait rest).calls⟩ := by
  intro n
  induction n with
  | zero =>
    intro a rest hb hfail
    simp [List.range']
  | succ n ih =>
    intro a rest hb hfail
    obtain ⟨m, hm, hrl⟩ := hfail a le_rfl (by omega)
    have hcond : ¬(is_rate_limited m = false ∨ (a : Int) ≥ retries) := by
      push_neg
      refine ⟨by simp [hrl], ?_⟩
      push_cast at hb
      omega
    rw [List.range'_succ, List.cons_append]
    simp only [fetchLoop, hm]
    rw [if_neg hcond]
    rw [ih (a + 1) rest (by push_cast at hb ⊢; omega)
      (fun i h1 h2 => hfail i (by omega) (by omega))]
    simp only [FetchTrace.mk.injEq, List.map_cons, List.cons_append]
    exact ⟨trivial, trivial, by omega⟩

/-- C1: when the first k - 1 attempts fail rate-limited and attempt k with
k at most retries succeeds, fetch_with_backoff returns the set of usernames
of the records of the successful attempt, sleeps exactly base_wait times i
after each failed attempt i in order, and invokes the action k times. -/
theorem fetch_with_backoff_rate_limited_then_success
    (act : Nat → Except (List Nat) (List Profile)) (label : List Nat)
    (retries base_wait : Int) (k : Nat) (ps : List Profile)
    (hk1 : 1 ≤ k) (hkr : (k : Int) ≤ retries)
    (hfail : ∀ i, 1 ≤ i → i < k → ∃ m, act i = .error m ∧ is_rate_limited m = true)
    (hsucc : act k = .ok ps) :
    (fetch_with_backoff act label retries base_wait).result =
      .ok (ps.map Profile.username).toFinset ∧
    (fetch_with_backoff act label retries base_wait).sleeps =
      (List.range' 1 (k - 1)).map (fun i : Nat => base_wait * (i : Int)) ∧
    (fetch_with_backoff act label retries base_wait).calls = k := by
  unfold fetch_with_backoff
  have hsplit : List.range' 1 retries.toNat =
      List.range' 1 (k - 1) ++ (k :: List.range' (k + 1) (retries.toNat - k)) := by
    rw [show (k :: List.range' (k + 1) (retries.toNat - k)) =
      List.range' k (retries.toNat - k + 1) from (List.range'_succ k _ 1).symm]
    rw [show List.range' k (retries.toNat - k + 1) =
      List.range' (1 + 1 * (k - 1)) (retries.toNat - k + 1) from by
        congr 1; omega]
    rw [List.range'_append]
    congr 1
    omega
  rw [hsplit, fetchLoop_skip act label retries base_wait (k - 1) 1 _
    (by push_cast; omega) (fun i h1 h2 => hfail i h1 (by omega))]
  simp only [fetchLoop, hsucc]
  refine ⟨trivial, by simp, by omega⟩

/-- Witness for C1: rate-limited failures on attempts 1 and 2, success on
attempt 3 with retries 3 and base_wait 45 return the fetched usernames
after sleeping 45 and 90 seconds and three invocations. -/
theorem fetch_with_backoff_rate_limited_then_success_witness :
    (fetch_with_backoff
      (fun i => if i = 3 then .ok [⟨"alice"⟩] else .error (pyStr "rate limit"))
      (pyStr "followers") 3 45).result =
      .ok (([⟨"alice"⟩] : List Profile).map Profile.username).toFinset ∧
    (fetch_with_backoff
      (fun i => if i = 3 then .ok [⟨"alice"⟩] else .error (pyStr "rate limit"))
      (pyStr "followers") 3 45).sleeps =
      (List.range' 1 (3 - 1)).map (fun i : Nat => (45 : Int) * (i : Int)) ∧
    (fetch_with_backoff
      (fun i => if i = 3 then .ok [⟨"alice"⟩] else .error (pyStr "rate limit"))
      (pyStr "followers") 3 45).calls = 3 :=
  fetch_with_backoff_rate_limited_then_success
    (fun i => if i = 3 then .ok [⟨"alice"⟩] else .error (pyStr "rate limit"))
    (pyStr "followers") 3 45 3 [⟨"alice"⟩] (by decide) (by decide)
    (fun i h1 h2 => ⟨pyStr "rate limit",
      by have hi : i ≠ 3 := by omega
         simp [hi], by decide⟩)
    (by simp)

/-- C2: a fatal (not rate-limited) error on attempt a, reached after a - 1
rate-limited failures, is re-raised at once: the fetch stops with that very
error, the action is not invoked again, and no sleep follows the fatal
attempt; with a = 1 it raises before any sleep at all. -/
theorem fetch_with_backoff_fatal_immediate
    (act : Nat → Except (List Nat) (List Profile)) (label : List Nat)
    (retries base_wait : Int) (a : Nat) (m : List Nat)
    (ha1 : 1 ≤ a) (har : (a : Int) ≤ retries)
    (hprev : ∀ i, 1 ≤ i → i < a → ∃ mi, act i = .error mi ∧ is_rate_limited mi = true)
    (herr : act a = .error m) (hfatal : is_rate_limited m = false) :
    (fetch_with_backoff act label retries base_wait).result =
      .error (.raised m) ∧
    (fetch_with_backoff act label retries base_wait).sleeps =
      (List.range' 1 (a - 1)).map (fun i : Nat => base_wait * (i : Int)) ∧
    (fetch_with_backoff act label retries base_wait).calls = a := by
  unfold fetch_with_backoff
  have hsplit : List.range' 1 retries.toNat =
      List.range' 1 (a - 1) ++ (a :: List.range' (a + 1) (retries.toNat - a)) := by
    rw [show (a :: List.range' (a + 1) (retries.toNat - a)) =
      List.range' a (retries.toNat - a + 1) from (List.range'_succ a _ 1).symm]
    rw [show List.range' a (retries.toNat - a + 1) =
      List.range' (1 + 1 * (a - 1)) (retries.toNat - a + 1) from by
        congr 1; omega]
    rw [List.range'_append]
    congr 1
    omega
  rw [hsplit, fetchLoop_skip act label retries base_wait (a - 1) 1 _
    (by rw [show (1 + (a - 1)) = a from by omega]; exact har)
    (fun i h1 h2 => hprev i h1 (by omega))]
  simp only [fetchLoop, herr]
  rw [if_pos (Or.inl hfatal)]
  refine ⟨rfl, by simp, ?_⟩
  show a - 1 + 1 = a
  omega

/-- Witness for C2: a fatal error on the very first attempt raises at once,
before any sleep, after a single invocation. -/
theorem fetch_with_backoff_fatal_immediate_witness :
    (fetch_with_backoff (fun _ => .error (pyStr "boom"))
      (pyStr "followers") 3 45).result = .error (.raised (pyStr "boom")) ∧
    (fetch_with_backoff (fun _ => .error (pyStr "boom"))
      (pyStr "followers") 3 45).sleeps =
      (List.range' 1 (1 - 1)).map (fun i : Nat => (45 : Int) * (i : Int)) ∧
    (fetch_with_backoff (fun _ => .error (pyStr "boom"))
      (pyStr "followers") 3 45).calls = 1 :=
  fetch_with_backoff_fatal_immediate (fun _ => .error (pyStr "boom"))
    (pyStr "followers") 3 45 1 (pyStr "boom") (by decide) (by decide)
    (fun i h1 h2 => absurd h2 (by omega)) rfl (by decide)

/-- While the remaining attempt numbers reach the retry bound, the loop
never falls through to the trailing RuntimeError: every branch returns a
result or re-raises an attempt error. -/
theorem fetchLoop_no_exhausted (act : Nat → Except (List Nat) (List Profile))
    (label : List Nat) (retries base_wait : Int) :
    ∀ (n a : Nat), 1 ≤ n → retries ≤ ((a + n - 1 : Nat) : Int) →
    ∀ m, (fetchLoop act label retries base_wait (List.range' a n)).result ≠
      .error (.exhausted m) := by
  intro n
  induction n with
  | zero =>
    intro a h1 hr m
    exact absurd h1 (by omega)
  | succ n ih =>
    intro a h1 hr m
    rw [show (a + (n + 1) - 1) = a + n from by omega] at hr
    rw [List.range'_succ]
    cases hact : act a with
    | ok ps =>
      simp only [fetchLoop, hact]
      simp
    | error msg =>
      simp only [fetchLoop, hact]
      by_cases hc : is_rate_limited msg = false ∨ (a : Int) ≥ retries
      · rw [if_pos hc]
        simp
      · rw [if_neg hc]
        push_neg at hc
        have hn : 1 ≤ n := by
          have := hc.2
          push_cast at hr this
          omega
        have hr' : retries ≤ ((a + 1 + n - 1 : Nat) : Int) := by
          rw [show (a + 1 + n - 1) = a + n from by omega]
          exact hr
        exact ih (a + 1) hn hr' m

/-- C10: with retries below 1 the attempt range is empty, the action is
never invoked and fetch_with_backoff falls through to the trailing
RuntimeError; with retries at least 1 that RuntimeError is unreachable and
the call returns some attempt result or re-raises an attempt error. -/
theorem fetch_with_backoff_retries_edge
    (act : Nat → Except (List Nat) (List Profile)) (label : List Nat)
    (base_wait : Int) (retries : Int) :
    (retries < 1 → fetch_with_backoff act label retries base_wait =
      ⟨.error (.exhausted (runtimeMsg label retries)), [], 0⟩) ∧
    (1 ≤ retries → ∀ m,
      (fetch_with_backoff act label retries base_wait).result ≠
        .error (.exhausted m)) := by
  constructor
  · intro hr
    unfold fetch_with_backoff
    rw [show retries.toNat = 0 from by omega]
    rfl
  · intro hr m
    unfold fetch_with_backoff
    refine fetchLoop_no_exhausted act label retries base_wait retries.toNat 1
      (by omega) ?_ m
    rw [show (1 + retries.toNat - 1) = retries.toNat from by omega]
    omega

/-- Witness for C10: with retries 0 the action never runs and the
RuntimeError is raised; with retries 1 the same action ends in a re-raise,
not the RuntimeError. -/
theorem fetch_with_backoff_retries_edge_witness :
    fetch_with_backoff (fun _ => .error (pyStr "rate limit"))
      (pyStr "followers") 0 45 =
      ⟨.error (.exhausted (runtimeMsg (pyStr "followers") 0)), [], 0⟩ ∧
    (fetch_with_backoff (fun _ => .error (pyStr "rate limit"))
      (pyStr "followers") 1 45).result ≠
      .error (.exhausted (pyStr "boom")) :=
  ⟨(fetch_with_backoff_retries_edge (fun _ => .error (pyStr "rate limit"))
      (pyStr "followers") 45 0).1 (by decide),
   (fetch_with_backoff_retries_edge (fun _ => .error (pyStr "rate limit"))
      (pyStr "followers") 45 1).2 (by decide) (pyStr "boom")⟩

/-- C3: when either remote fetch ends by re-raising a rate-limited error
(which the loop only does on its final allowed attempt, the exhaustion
case), run_api consults the api snapshot location: if a snapshot loads, the
run exits 0, reconciles from the followers and followees sets of that
snapshot and reports the fallback; if the location is empty, the whole
operation exits 2, a non-success status, with no summary. -/
theorem run_api_rate_limited_exhaustion_fallback
    (generated_at target : String)
    (actF actG : Nat → Except (List Nat) (List Profile))
    (retries base_wait : Int) (stored : Option FileContent) (m : List Nat)
    (hrl : is_rate_limited m = true)
    (hfail :
      (fetch_with_backoff actF (pyStr "followers") retries base_wait).result =
        .error (.raised m) ∨
      ((∃ F, (fetch_with_backoff actF (pyStr "followers") retries base_wait).result =
          .ok F) ∧
        (fetch_with_backoff actG (pyStr "followees") retries base_wait).result =
          .error (.raised m))) :
    (∀ cached, load_snapshot stored = .ok (some cached) →
      run_api_core generated_at target actF actG retries base_wait stored =
        .ok ⟨0, some (print_summary cached.followers.toFinset
          cached.followees.toFinset), true, none⟩) ∧
    (load_snapshot stored = .ok none →
      run_api_core generated_at target actF actG retries base_wait stored =
        .ok ⟨2, none, false, none⟩) := by
  have hres : run_api_core generated_at target actF actG retries base_wait stored =
      run_api_rescue (.raised m) stored := by
    unfold run_api_core
    rcases hfail with h | ⟨⟨F, hF⟩, hG⟩
    · rw [h]
    · rw [hF, hG]
  constructor
  · intro cached hc
    rw [hres]
    unfold run_api_rescue
    rw [if_pos (by simpa [fetchErrMsg] using hrl)]
    rw [hc]
  · intro hc
    rw [hres]
    unfold run_api_rescue
    rw [if_pos (by simpa [fetchErrMsg] using hrl)]
    rw [hc]

/-- Witness for C3: an always rate-limited action with retries 1 exhausts
immediately; with a stored api snapshot the run exits 0 reconciling from it
and reporting the fallback, with an empty location it exits 2. -/
theorem run_api_rate_limited_exhaustion_fallback_witness :
    run_api_core "t0" "acct" (fun _ => .error (pyStr "rate limit"))
      (fun _ => .error (pyStr "rate limit")) 1 0
      (some (.json (.obj
        [("generated_at", .str "t0"), ("source", .str "api"),
         ("target", .str "acct"), ("followers", .arr [.str "alice"]),
         ("followees", .arr [.str "carol"])]))) =
      .ok ⟨0, some (print_summary (List.toFinset ["alice"])
        (List.toFinset ["carol"])), true, none⟩ ∧
    run_api_core "t0" "acct" (fun _ => .error (pyStr "rate limit"))
      (fun _ => .error (pyStr "rate limit")) 1 0 none =
      .ok ⟨2, none, false, none⟩ :=
  ⟨(run_api_rate_limited_exhaustion_fallback "t0" "acct"
      (fun _ => .error (pyStr "rate limit")) (fun _ => .error (pyStr "rate limit"))
      1 0 _ (pyStr "rate limit") (by decide) (Or.inl rfl)).1
      ⟨"t0", "api", "acct", ["alice"], ["carol"]⟩ rfl,
   (run_api_rate_limited_exhaustion_fallback "t0" "acct"
      (fun _ => .error (pyStr "rate limit")) (fun _ => .error (pyStr "rate limit"))
      1 0 none (pyStr "rate limit") (by decide) (Or.inl rfl)).2 rfl⟩

/-- Witness for C8 at a concrete accepted input: the at-signs and trailing
blank of "@@Bob " normalize away to the accepted username bob, and
normalizing again returns it unchanged. -/
theorem normalize_username_idempotent_witness :
    normalize_username (normalize_username (pyStr "@@Bob ")) =
      normalize_username (pyStr "@@Bob ") :=
  normalize_username_idempotent (pyStr "@@Bob ") (by decide)
